import Mathlib

/-!
Verification of the alert-manager client-side engine.

Shallow embedding of the filter / facet / group engine and the local
mutation operations of the Alarms page:
  - `filteredAlerts`           from src/standalone/components/alarms_page.tsx, lines 341-386
  - `groupedAlerts`            from src/standalone/components/alarms_page.tsx, lines 389-413
  - `groupedRules`             from src/unnamed/part_001, lines 202-225
  - `collectUniqueValues`,
    `collectLabelValues`,
    `collectLabelKeys`         from src/unnamed/part_000, lines 46-70
  - `saveCurrentSearch`,
    `loadSavedSearch`          from src/standalone/components/alarms_page.tsx, lines 323-334
  - `handleDeleteRules`,
    `visibleRules`             from src/standalone/components/alarms_page.tsx, lines 106, 207-213
  - `handleSilenceRule`        from src/standalone/components/alarms_page.tsx, lines 215-223
  - `handleCloneRule`          from src/standalone/components/alarms_page.tsx, lines 225-235
  - `fetchData`                from src/standalone/components/alarms_page.tsx, lines 108-124

Modelling conventions: JavaScript strings are `String`; JS `Set` objects are
duplicate-free `List String` values in insertion order (`setAdd`); JS plain
objects used as maps are association lists in insertion order, read with
`List.lookup` (first binding wins, as JS object keys are unique); JS string
truthiness is the test against `""`; `Date.now()` is a `Nat` millisecond
timestamp threaded explicitly; template interpolation of a number renders it
in decimal (`decimalRepr`); `new Date(now).toISOString()` is modelled as the
timestamp `now` itself (the ISO rendering is a faithful view of the
millisecond value, so timestamp fields are kept as `Nat`).
-/

/-- Decimal digit to character, as JS number-to-string rendering uses. -/
def digitChar (d : Nat) : Char :=
  match d with
  | 0 => '0' | 1 => '1' | 2 => '2' | 3 => '3' | 4 => '4'
  | 5 => '5' | 6 => '6' | 7 => '7' | 8 => '8' | _ => '9'

/-- Little-endian decimal digits of `n`, with explicit fuel (`fuel ≥ n`
suffices) so that the definition is structural and kernel-evaluable. -/
def digitsLoop : Nat → Nat → List Nat
  | _, 0 => []
  | 0, _ + 1 => []
  | fuel + 1, n + 1 => ((n + 1) % 10) :: digitsLoop fuel ((n + 1) / 10)

/-- Little-endian decimal digits of `n`. -/
def natDigitsRev (n : Nat) : List Nat := digitsLoop n n

/-- Value of a little-endian digit list; inverse of `natDigitsRev`. -/
def valDigits : List Nat → Nat
  | [] => 0
  | d :: ds => d + 10 * valDigits ds

/-- Decimal rendering of a natural number, as JS template interpolation of
`Date.now()` produces. -/
def decimalRepr (n : Nat) : String :=
  if n = 0 then "0" else String.mk ((natDigitsRev n).reverse.map digitChar)

/-- Contiguous-sublist test on character lists; `listContains hay pat` is
true iff `pat` occurs inside `hay` (the empty pattern always occurs). -/
def listContains (hay pat : List Char) : Bool :=
  match hay with
  | [] => pat.isEmpty
  | c :: t => pat.isPrefixOf (c :: t) || listContains t pat

/-- JS `String.prototype.includes`. -/
def jsIncludes (s sub : String) : Bool := listContains s.data sub.data

/-- JS `Set.prototype.add`: append the element unless already present.
Models a JS `Set` as a duplicate-free list in insertion order. -/
def setAdd (s : List String) (k : String) : List String :=
  if k ∈ s then s else s ++ [k]

/-- First-appearance deduplication of a list of keys (repeated `setAdd`),
used to state the bucket order produced by JS `Map` insertion. -/
def firstOccurrences (l : List String) : List String := l.foldl setAdd []

/-- JS `Array.prototype.sort()` on an array of strings (lexicographic). -/
def jsSortStrings (l : List String) : List String :=
  l.mergeSort (fun a b => decide (a ≤ b))

/-- `Alert` record (spec section 3; `UnifiedAlert` in src/core). The opaque
passthrough field `raw` is omitted: no embedded operation reads it. -/
structure UnifiedAlert where
  id : String
  datasourceId : String
  datasourceType : String
  name : String
  state : String
  severity : String
  message : String
  startTime : String
  lastUpdated : String
  labels : List (String × String)
  annotations : List (String × String)
deriving Repr, DecidableEq

/-- `Rule` (Monitor) record (spec section 3; `UnifiedRule` in src/core).
`group` is optional free text, with `""` standing for an absent group.
Timestamps are `Nat` milliseconds (see the modelling conventions above).
The UI-only mock list fields (alert history, chart data, routing) are
omitted: the embedded operations copy them verbatim and never read them. -/
structure UnifiedRule where
  id : String
  datasourceId : String
  datasourceType : String
  name : String
  enabled : Bool
  severity : String
  query : String
  condition : String
  labels : List (String × String)
  annotations : List (String × String)
  monitorType : String
  status : String
  healthStatus : String
  group : String
  createdBy : String
  createdAt : Nat
  lastModified : Nat
  description : String
  aiSummary : String
deriving Repr, DecidableEq

/-- `Datasource` record (spec section 3). -/
structure Datasource where
  id : String
  name : String
  type : String
  url : String
  enabled : Bool
deriving Repr, DecidableEq

/-- The group-by mode of the alert filter state
(src/unnamed/part_000, line 32). -/
inductive AlertGroupBy where
  | none
  | datasource
  | state
deriving Repr, DecidableEq

/-- `AlertFilterState` (src/unnamed/part_000, lines 26-33): selected facet
values plus label-key selections; `labels` is iterated in insertion order
exactly as `Object.entries` does. -/
structure AlertFilterState where
  state : List String
  severity : List String
  datasourceType : List String
  datasourceId : List String
  labels : List (String × List String)
  groupBy : AlertGroupBy
deriving Repr, DecidableEq

/-- `emptyAlertFilters` (src/unnamed/part_000, lines 35-37). -/
def emptyAlertFilters : AlertFilterState :=
  { state := [], severity := [], datasourceType := [], datasourceId := []
    labels := [], groupBy := AlertGroupBy.none }

/-- The rules-variant `FilterState` of the monitors filters panel
(src/standalone/components/alert_detail_flyout.tsx, lines 638-647 after
the document separator): selected values per facet field — status,
severity, monitor type, health status, creator, notification destination,
backend — plus a mapping of label key to selected label values. The
enum-typed facets (`MonitorStatus`, `UnifiedAlertSeverity`, `MonitorType`,
`MonitorHealthStatus`) are string tags, kept as `String` here as
everywhere in this embedding. The operations embedded here copy and
restore this state wholesale. -/
structure FilterState where
  status : List String
  severity : List String
  monitorType : List String
  healthStatus : List String
  labels : List (String × List String)
  createdBy : List String
  destinations : List String
  backend : List String
deriving Repr, DecidableEq

/-- `emptyFilters` (src/standalone/components/alert_detail_flyout.tsx,
lines 649-652 after the document separator): the filter state with every
selection empty. -/
def emptyFilters : FilterState :=
  { status := [], severity := [], monitorType := [], healthStatus := []
    labels := [], createdBy := [], destinations := [], backend := [] }

/-- `SavedSearch` (src/standalone/components/alert_detail_flyout.tsx,
lines 654-659 after the document separator). -/
structure SavedSearch where
  id : String
  name : String
  query : String
  filters : FilterState
deriving Repr, DecidableEq

/-- The domain state owned by the `AlarmsPage` component
(src/standalone/components/alarms_page.tsx, lines 84-101); transient
UI-only state (popovers, collapsed panels, tabs) is omitted. -/
structure PageState where
  alerts : List UnifiedAlert
  rules : List UnifiedRule
  deletedRuleIds : List String
  datasources : List Datasource
  loading : Bool
  searchQuery : String
  filters : FilterState
  savedSearches : List SavedSearch
  alertSearchQuery : String
  alertFilters : AlertFilterState
deriving Repr, DecidableEq

/-- The initial component state: every collection empty, `loading` true
(the `useState` initialisers of src/standalone/components/alarms_page.tsx,
lines 84-101). -/
def initialPageState : PageState :=
  { alerts := [], rules := [], deletedRuleIds := [], datasources := []
    loading := true, searchQuery := "", filters := emptyFilters
    savedSearches := [], alertSearchQuery := ""
    alertFilters := emptyAlertFilters }

/-- The free-text clause of `filteredAlerts`
(src/standalone/components/alarms_page.tsx, lines 346-352): the lowered
query occurs in one of name, message, state, severity. -/
def freeTextMatch (alertSearchQuery : String) (a : UnifiedAlert) : Bool :=
  let query := alertSearchQuery.toLower
  jsIncludes a.name.toLower query || jsIncludes a.message.toLower query ||
    jsIncludes a.state.toLower query || jsIncludes a.severity.toLower query

/-- The label clause of `filteredAlerts`
(src/standalone/components/alarms_page.tsx, lines 378-381):
`labelVal && values.includes(labelVal)` — the record must carry the key
with a truthy (non-empty) value that is among the selected values. -/
def labelMatch (sel : List String) (labels : List (String × String)) (key : String) : Bool :=
  match List.lookup key labels with
  | some v => !(decide (v = "")) && decide (v ∈ sel)
  | none => false

/-- One pass of the label-facet loop of `filteredAlerts`
(src/standalone/components/alarms_page.tsx, lines 376-383). -/
def labelFilterStep (res : List UnifiedAlert) (kv : String × List String) : List UnifiedAlert :=
  if kv.2.length > 0 then res.filter (fun a => labelMatch kv.2 a.labels kv.1) else res

/-- `filteredAlerts` (src/standalone/components/alarms_page.tsx, lines
341-386): successive narrowing by free text, state, severity, backend
type, datasource id, then each label facet in insertion order. -/
def filteredAlerts (alerts : List UnifiedAlert) (alertSearchQuery : String)
    (alertFilters : AlertFilterState) : List UnifiedAlert :=
  let r0 := alerts
  let r1 := if alertSearchQuery ≠ "" then
      r0.filter (freeTextMatch alertSearchQuery) else r0
  let r2 := if alertFilters.state.length > 0 then
      r1.filter (fun a => decide (a.state ∈ alertFilters.state)) else r1
  let r3 := if alertFilters.severity.length > 0 then
      r2.filter (fun a => decide (a.severity ∈ alertFilters.severity)) else r2
  let r4 := if alertFilters.datasourceType.length > 0 then
      r3.filter (fun a => decide (a.datasourceType ∈ alertFilters.datasourceType)) else r3
  let r5 := if alertFilters.datasourceId.length > 0 then
      r4.filter (fun a => decide (a.datasourceId ∈ alertFilters.datasourceId)) else r4
  alertFilters.labels.foldl labelFilterStep r5

/-- The conjunction-of-constraints predicate the evaluator implements: free
text (empty query passes), each standard facet (empty selection passes),
and each label facet (key present with a non-empty value in the selected
set). The parenthesisation mirrors the left-to-right narrowing order. -/
def matchesFilters (q : String) (fs : AlertFilterState) (a : UnifiedAlert) : Bool :=
  (decide (q = "") || freeTextMatch q a) &&
    ((decide (fs.state.length = 0) || decide (a.state ∈ fs.state)) &&
    ((decide (fs.severity.length = 0) || decide (a.severity ∈ fs.severity)) &&
    ((decide (fs.datasourceType.length = 0) || decide (a.datasourceType ∈ fs.datasourceType)) &&
    ((decide (fs.datasourceId.length = 0) || decide (a.datasourceId ∈ fs.datasourceId)) &&
    fs.labels.all (fun kv => decide (kv.2.length = 0) || labelMatch kv.2 a.labels kv.1)))))

/-- The label clause exactly as the claim words it: the record has the key
and its value is in the selected set (no truthiness requirement on the
value). Used only to compare the claim against the code. -/
def specLabelMatch (sel : List String) (labels : List (String × String)) (key : String) : Bool :=
  match List.lookup key labels with
  | some v => decide (v ∈ sel)
  | none => false

/-- The record predicate as claim C1 words it: identical to
`matchesFilters` except for the label clause. -/
def specMatches (q : String) (fs : AlertFilterState) (a : UnifiedAlert) : Bool :=
  (decide (q = "") || freeTextMatch q a) &&
    ((decide (fs.state.length = 0) || decide (a.state ∈ fs.state)) &&
    ((decide (fs.severity.length = 0) || decide (a.severity ∈ fs.severity)) &&
    ((decide (fs.datasourceType.length = 0) || decide (a.datasourceType ∈ fs.datasourceType)) &&
    ((decide (fs.datasourceId.length = 0) || decide (a.datasourceId ∈ fs.datasourceId)) &&
    fs.labels.all (fun kv => decide (kv.2.length = 0) || specLabelMatch kv.2 a.labels kv.1)))))

/-- JS `Map` insertion during grouping: push onto the existing bucket for
this key, or append a fresh bucket at the end
(src/standalone/components/alarms_page.tsx, lines 406-409). -/
def insertGrouped {α : Type} (k : String) (a : α) :
    List (String × List α) → List (String × List α)
  | [] => [(k, [a])]
  | (k2, xs) :: rest =>
    if k2 = k then (k2, xs ++ [a]) :: rest else (k2, xs) :: insertGrouped k a rest

/-- The grouping fold over a record collection: a JS `Map` from key to
bucket, in first-appearance order of keys. -/
def groupByKey {α : Type} (f : α → String) (l : List α) : List (String × List α) :=
  l.foldl (fun gs a => insertGrouped (f a) a gs) []

/-- The per-alert group key of `groupedAlerts`
(src/standalone/components/alarms_page.tsx, lines 397-404); the
`ungrouped` arm is the unreachable else-branch of the source. -/
def alertGroupKey (gb : AlertGroupBy) (a : UnifiedAlert) : String :=
  match gb with
  | AlertGroupBy.datasource => a.datasourceId
  | AlertGroupBy.state => a.state
  | AlertGroupBy.none => "ungrouped"

/-- `groupedAlerts` (src/standalone/components/alarms_page.tsx, lines
389-413): `none` (null) when no grouping is selected, otherwise the keyed
partition of the filtered alerts. -/
def groupedAlerts (gb : AlertGroupBy) (filtered : List UnifiedAlert) :
    Option (List (String × List UnifiedAlert)) :=
  if gb = AlertGroupBy.none then none
  else some (groupByKey (alertGroupKey gb) filtered)

/-- The per-rule group key of `groupedRules`
(src/unnamed/part_001, line 206): `rule.group || 'Ungrouped'`. -/
def ruleGroupKey (r : UnifiedRule) : String :=
  if r.group = "" then "Ungrouped" else r.group

/-- One rendered rule-group row (src/unnamed/part_001, lines 213-224). -/
structure RuleGroup where
  groupName : String
  rules : List UnifiedRule
  ruleCount : Nat
  enabledCount : Nat
  disabledCount : Nat
deriving Repr, DecidableEq

/-- `groupedRules` (src/unnamed/part_001, lines 202-225): partition the
filtered rules by group name and aggregate enabled/disabled counts. -/
def groupedRules (filteredRules : List UnifiedRule) : List RuleGroup :=
  (groupByKey ruleGroupKey filteredRules).map (fun g =>
    let enabledCount := (g.2.filter (fun r => r.enabled)).length
    { groupName := g.1, rules := g.2, ruleCount := g.2.length
      enabledCount := enabledCount
      disabledCount := g.2.length - enabledCount })

/-- The facts claim C2 asserts of a grouping `gs` of records `R` under key
function `f`: member counts sum to the size of `R`; the buckets jointly
hold exactly the records of `R` (no duplicates, no omissions); bucket keys
are the distinct keys of `R` in first-appearance order; and every bucket
holds only records bearing its key. -/
def PartitionFacts {α : Type} (f : α → String) (R : List α)
    (gs : List (String × List α)) : Prop :=
  ((gs.map (fun g => g.2.length)).sum = R.length) ∧
  List.Perm (gs.map Prod.snd).flatten R ∧
  gs.map Prod.fst = firstOccurrences (R.map f) ∧
  (gs.map Prod.fst).Nodup ∧
  ∀ g ∈ gs, ∀ a ∈ g.2, f a = g.1

/-- The loop body of the `Set` accumulation in `collectUniqueValues` and
`collectLabelValues` (src/unnamed/part_000, lines 48-49 and 64-66): add
the extracted value to the set when it is truthy (non-empty). -/
def collectStep (acc : List String) (v : Option String) : List String :=
  match v with
  | some v => if v ≠ "" then setAdd acc v else acc
  | none => acc

/-- The JS `Set` accumulation common to `collectUniqueValues` and
`collectLabelValues` (src/unnamed/part_000, lines 46-53 and 63-70). -/
def collectSet {α : Type} (g : α → Option String) (l : List α) : List String :=
  l.foldl (fun acc a => collectStep acc (g a)) []

/-- `collectUniqueValues` (src/unnamed/part_000, lines 46-53): the sorted
set of truthy values of `field` over the collection. -/
def collectUniqueValues (alerts : List UnifiedAlert) (field : UnifiedAlert → String) :
    List String :=
  jsSortStrings (collectSet (fun a => some (field a)) alerts)

/-- `collectLabelValues` (src/unnamed/part_000, lines 63-70): the sorted
set of truthy values of one label key over the collection. -/
def collectLabelValues (alerts : List UnifiedAlert) (key : String) : List String :=
  jsSortStrings (collectSet (fun a => List.lookup key a.labels) alerts)

/-- `collectLabelKeys` (src/unnamed/part_000, lines 55-61): the sorted
union of the label-key sets of all records. -/
def collectLabelKeys (alerts : List UnifiedAlert) : List String :=
  jsSortStrings (alerts.foldl (fun ks a => (a.labels.map Prod.fst).foldl setAdd ks) [])

/-- `saveCurrentSearch` (src/standalone/components/alarms_page.tsx, lines
323-329): abort on an empty (or cancelled) name, otherwise append a
snapshot of the active query and filter state under a store-generated id
built from the current timestamp. -/
def saveCurrentSearch (now : Nat) (name : String) (st : PageState) : PageState :=
  if name = "" then st
  else { st with savedSearches := st.savedSearches ++
          [{ id := "ss-" ++ decimalRepr now, name := name
             query := st.searchQuery, filters := st.filters }] }

/-- `loadSavedSearch` (src/standalone/components/alarms_page.tsx, lines
331-334): overwrite the active query and filter state with the snapshot. -/
def loadSavedSearch (ss : SavedSearch) (st : PageState) : PageState :=
  { st with searchQuery := ss.query, filters := ss.filters }

/-- A sequence of save operations, each with the timestamp it observes. -/
def runSaves (st : PageState) (ops : List (Nat × String)) : PageState :=
  ops.foldl (fun s op => saveCurrentSearch op.1 op.2 s) st

/-- `handleDeleteRules` (src/standalone/components/alarms_page.tsx, lines
207-213): add the ids to the tombstone set; the fetched rule list is not
touched. -/
def handleDeleteRules (ids : List String) (st : PageState) : PageState :=
  { st with deletedRuleIds := ids.foldl setAdd st.deletedRuleIds }

/-- `visibleRules` (src/standalone/components/alarms_page.tsx, line 106):
the fetched rules minus the tombstoned ids. -/
def visibleRules (st : PageState) : List UnifiedRule :=
  st.rules.filter (fun r => decide (r.id ∉ st.deletedRuleIds))

/-- The status toggle of `handleSilenceRule`
(src/standalone/components/alarms_page.tsx, line 218). -/
def toggledStatus (status : String) : String :=
  if status = "muted" then "active" else "muted"

/-- `handleSilenceRule` (src/standalone/components/alarms_page.tsx, lines
215-223): map over the rules, toggling the status of the one whose id
matches and returning every other rule unchanged. -/
def handleSilenceRule (id : String) (st : PageState) : PageState :=
  { st with rules := st.rules.map (fun r =>
      if r.id = id then { r with status := toggledStatus r.status } else r) }

/-- The `clone` record built by `handleCloneRule`
(src/standalone/components/alarms_page.tsx, lines 226-233): spread of the
monitor with regenerated id, name suffix, timestamps and creator. -/
def cloneOf (now : Nat) (monitor : UnifiedRule) : UnifiedRule :=
  { monitor with
    id := "clone-" ++ decimalRepr now
    name := monitor.name ++ " (Copy)"
    createdAt := now
    lastModified := now
    createdBy := "current-user" }

/-- `handleCloneRule` (src/standalone/components/alarms_page.tsx, lines
225-235): prepend the clone to the rule list. -/
def handleCloneRule (now : Nat) (monitor : UnifiedRule) (st : PageState) : PageState :=
  { st with rules := cloneOf now monitor :: st.rules }

/-- The join of the three list endpoints performed by `Promise.all`
(src/standalone/components/alarms_page.tsx, lines 111-115): the join
fails as soon as any one request fails. -/
def joinFetch {ε : Type} (ra : Except ε (List UnifiedAlert))
    (rr : Except ε (List UnifiedRule)) (rd : Except ε (List Datasource)) :
    Except ε (List UnifiedAlert × List UnifiedRule × List Datasource) :=
  match ra, rr, rd with
  | Except.ok a, Except.ok r, Except.ok d => Except.ok (a, r, d)
  | Except.error e, _, _ => Except.error e
  | _, Except.error e, _ => Except.error e
  | _, _, Except.error e => Except.error e

/-- `fetchData` (src/standalone/components/alarms_page.tsx, lines 108-124):
set loading, install the three collections on success; on failure the
error is caught (the function is total and returns a state, never a
propagated exception) and only the loading flag is cleared. -/
def fetchData {ε : Type} (st : PageState)
    (res : Except ε (List UnifiedAlert × List UnifiedRule × List Datasource)) :
    PageState :=
  let st1 := { st with loading := true }
  match res with
  | Except.ok (a, r, d) =>
    { st1 with alerts := a, rules := r, datasources := d, loading := false }
  | Except.error _ => { st1 with loading := false }

/-! ## Concrete fixtures for witnesses and counterexamples -/

/-- An alert carrying the label `service` with the empty-string value. -/
def cexAlert : UnifiedAlert :=
  { id := "a1", datasourceId := "ds-1", datasourceType := "prometheus"
    name := "cpu high", state := "active", severity := "high"
    message := "cpu over threshold", startTime := "", lastUpdated := ""
    labels := [("service", "")], annotations := [] }

/-- A filter state selecting the empty-string value for label `service`. -/
def cexFilters : AlertFilterState :=
  { emptyAlertFilters with labels := [("service", [""])] }

/-- A sample alert for witness instantiations. -/
def sampleAlert : UnifiedAlert :=
  { id := "a2", datasourceId := "ds-2", datasourceType := "opensearch"
    name := "errors", state := "pending", severity := "low"
    message := "error rate", startTime := "", lastUpdated := ""
    labels := [("team", "core")], annotations := [] }

/-- A sample rule for witness instantiations. -/
def sampleRule : UnifiedRule :=
  { id := "r1", datasourceId := "ds-1", datasourceType := "prometheus"
    name := "X", enabled := true, severity := "high", query := "up == 0"
    condition := "gt 0", labels := [], annotations := []
    monitorType := "metric", status := "active", healthStatus := "healthy"
    group := "", createdBy := "u1", createdAt := 1, lastModified := 1
    description := "", aiSummary := "" }

/-- A second sample rule, in a named group and muted. -/
def sampleRule2 : UnifiedRule :=
  { id := "r2", datasourceId := "ds-2", datasourceType := "opensearch"
    name := "Y", enabled := false, severity := "low", query := "level:error"
    condition := "gt 5", labels := [], annotations := []
    monitorType := "log", status := "muted", healthStatus := "healthy"
    group := "g1", createdBy := "u2", createdAt := 2, lastModified := 2
    description := "", aiSummary := "" }

/-- A rule whose id happens to be the clone id for timestamp 42 and whose
creator is already the fixed actor tag. -/
def cloneCexRule : UnifiedRule :=
  { sampleRule with id := "clone-42", createdBy := "current-user" }

/-- A sample rules-variant filter state. -/
def sampleFilters : FilterState :=
  { status := ["active"], severity := ["high"], monitorType := ["metric"]
    healthStatus := [], labels := [("team", ["core"])], createdBy := []
    destinations := [], backend := ["prometheus"] }

/-- A page state with an active query and filter state, for the
saved-search round-trip witness. -/
def saveStateA : PageState :=
  { initialPageState with searchQuery := "cpu", filters := sampleFilters }

/-- A page state with a different active query and filter state, the state
into which the saved search is loaded. -/
def saveStateB : PageState :=
  { initialPageState with searchQuery := "disk", filters := emptyFilters }

/-- A page state holding two fetched rules, for delete and silence
witnesses. -/
def rulesStateA : PageState :=
  { initialPageState with rules := [sampleRule, sampleRule2] }

/-! ## Helper lemmas: filters -/

theorem filter_tt {α : Type} (l : List α) : l.filter (fun _ => true) = l := by
  induction l with
  | nil => rfl
  | cons a t ih => simp [List.filter, ih]

theorem filter_comp {α : Type} (p q : α → Bool) (l : List α) :
    (l.filter p).filter q = l.filter (fun a => p a && q a) := by
  induction l with
  | nil => rfl
  | cons a t ih =>
    by_cases hp : p a = true
    · by_cases hq : q a = true <;> simp [List.filter_cons, hp, hq, ih]
    · simp only [Bool.not_eq_true] at hp
      simp [List.filter_cons, hp, ih]

theorem condFilterNe {α : Type} (s : String) (p : α → Bool) (l : List α) :
    (if s ≠ "" then l.filter p else l) =
      l.filter (fun a => decide (s = "") || p a) := by
  by_cases h : s = ""
  · simp [h, filter_tt]
  · simp [h]

theorem condFilterLen {α β : Type} (xs : List β) (p : α → Bool) (l : List α) :
    (if xs.length > 0 then l.filter p else l) =
      l.filter (fun a => decide (xs.length = 0) || p a) := by
  by_cases h : xs.length = 0
  · simp [h, filter_tt]
  · simp [h, Nat.pos_of_ne_zero h]

theorem foldl_labelFilterStep (kvs : List (String × List String))
    (l : List UnifiedAlert) :
    kvs.foldl labelFilterStep l =
      l.filter (fun a =>
        kvs.all (fun kv => decide (kv.2.length = 0) || labelMatch kv.2 a.labels kv.1)) := by
  induction kvs generalizing l with
  | nil => simp [filter_tt]
  | cons kv rest ih =>
    rw [List.foldl_cons, ih]
    show (labelFilterStep l kv).filter _ = _
    rw [labelFilterStep, condFilterLen, filter_comp]
    simp only [List.all_cons]

theorem filteredAlerts_eq_filter (alerts : List UnifiedAlert) (q : String)
    (fs : AlertFilterState) :
    filteredAlerts alerts q fs = alerts.filter (matchesFilters q fs) := by
  simp only [filteredAlerts]
  rw [foldl_labelFilterStep, condFilterLen, filter_comp, condFilterLen, filter_comp,
    condFilterLen, filter_comp, condFilterLen, filter_comp, condFilterNe, filter_comp]
  unfold matchesFilters
  rfl

/-! ## Helper lemmas: set accumulation -/

theorem mem_setAdd (s : List String) (k x : String) :
    x ∈ setAdd s k ↔ x ∈ s ∨ x = k := by
  by_cases h : k ∈ s
  · simp only [setAdd, if_pos h]
    constructor
    · exact fun hx => Or.inl hx
    · rintro (hx | rfl)
      · exact hx
      · exact h
  · simp [setAdd, if_neg h]

theorem nodup_setAdd (s : List String) (k : String) (h : s.Nodup) :
    (setAdd s k).Nodup := by
  by_cases hk : k ∈ s
  · simpa [setAdd, if_pos hk] using h
  · simp [setAdd, if_neg hk, List.nodup_append, h, hk]

theorem mem_foldl_setAdd :
    ∀ (l : List String) (s : List String) (x : String),
      x ∈ l.foldl setAdd s ↔ x ∈ s ∨ x ∈ l := by
  intro l
  induction l with
  | nil => simp
  | cons a t ih =>
    intro s x
    rw [List.foldl_cons, ih, mem_setAdd]
    simp [or_assoc, or_comm, List.mem_cons]
    tauto

theorem nodup_foldl_setAdd :
    ∀ (l : List String) (s : List String), s.Nodup → (l.foldl setAdd s).Nodup := by
  intro l
  induction l with
  | nil => exact fun s h => h
  | cons a t ih => exact fun s h => ih _ (nodup_setAdd s a h)

theorem nodup_firstOccurrences (l : List String) : (firstOccurrences l).Nodup :=
  nodup_foldl_setAdd l [] List.nodup_nil

/-! ## Helper lemmas: grouping -/

theorem keys_insertGrouped {α : Type} (k : String) (a : α)
    (gs : List (String × List α)) :
    (insertGrouped k a gs).map Prod.fst = setAdd (gs.map Prod.fst) k := by
  induction gs with
  | nil => simp [insertGrouped, setAdd]
  | cons g rest ih =>
    obtain ⟨k2, xs⟩ := g
    by_cases h : k2 = k
    · subst h
      simp [insertGrouped, setAdd]
    · by_cases hm : k ∈ rest.map Prod.fst
      · simp [insertGrouped, h, ih, setAdd, hm, List.mem_cons, Ne.symm h]
      · simp [insertGrouped, h, ih, setAdd, hm, List.mem_cons, Ne.symm h]

theorem flatten_insertGrouped {α : Type} (k : String) (a : α)
    (gs : List (String × List α)) :
    List.Perm ((insertGrouped k a gs).map Prod.snd).flatten
      ((gs.map Prod.snd).flatten ++ [a]) := by
  induction gs with
  | nil => simp [insertGrouped]
  | cons g rest ih =>
    obtain ⟨k2, xs⟩ := g
    by_cases h : k2 = k
    · subst h
      have hstep : insertGrouped k2 a ((k2, xs) :: rest) = (k2, xs ++ [a]) :: rest := by
        simp [insertGrouped]
      rw [hstep]
      simp only [List.map_cons, List.flatten_cons]
      rw [List.append_assoc, List.append_assoc]
      exact List.Perm.append_left xs List.perm_append_comm
    · have hstep : insertGrouped k a ((k2, xs) :: rest) =
          (k2, xs) :: insertGrouped k a rest := by
        simp [insertGrouped, h]
      rw [hstep]
      simp only [List.map_cons, List.flatten_cons]
      rw [List.append_assoc]
      exact List.Perm.append_left xs ih

theorem pure_insertGrouped {α : Type} (f : α → String) (a : α)
    (gs : List (String × List α))
    (h : ∀ g ∈ gs, ∀ x ∈ g.2, f x = g.1) :
    ∀ g ∈ insertGrouped (f a) a gs, ∀ x ∈ g.2, f x = g.1 := by
  induction gs with
  | nil =>
    intro g hg x hx
    simp only [insertGrouped, List.mem_singleton] at hg
    subst hg
    simp only [List.mem_singleton] at hx
    subst hx
    rfl
  | cons g0 rest ih =>
    obtain ⟨k2, xs⟩ := g0
    by_cases hk : k2 = f a
    · intro g hg x hx
      simp only [insertGrouped, if_pos hk, List.mem_cons] at hg
      rcases hg with rfl | hg
      · simp only [List.mem_append, List.mem_singleton] at hx
        rcases hx with hx | rfl
        · exact h (k2, xs) (List.mem_cons_self _ _) x hx
        · exact hk.symm
      · exact h g (List.mem_cons_of_mem _ hg) x hx
    · intro g hg x hx
      simp only [insertGrouped, if_neg hk, List.mem_cons] at hg
      rcases hg with rfl | hg
      · exact h (k2, xs) (List.mem_cons_self _ _) x hx
      · exact ih (fun g2 hg2 => h g2 (List.mem_cons_of_mem _ hg2)) g hg x hx

theorem keys_groupByKey_fold {α : Type} (f : α → String) :
    ∀ (l : List α) (gs : List (String × List α)),
      ((l.foldl (fun gs a => insertGrouped (f a) a gs) gs).map Prod.fst) =
        l.foldl (fun ks a => setAdd ks (f a)) (gs.map Prod.fst) := by
  intro l
  induction l with
  | nil => intro gs; rfl
  | cons a t ih =>
    intro gs
    rw [List.foldl_cons, List.foldl_cons, ih, keys_insertGrouped]

theorem keys_groupByKey {α : Type} (f : α → String) (l : List α) :
    (groupByKey f l).map Prod.fst = firstOccurrences (l.map f) := by
  rw [groupByKey, keys_groupByKey_fold, firstOccurrences, List.foldl_map]
  rfl

theorem flatten_groupByKey_fold {α : Type} (f : α → String) :
    ∀ (l : List α) (gs : List (String × List α)),
      List.Perm
        (((l.foldl (fun gs a => insertGrouped (f a) a gs) gs).map Prod.snd).flatten)
        ((gs.map Prod.snd).flatten ++ l) := by
  intro l
  induction l with
  | nil => intro gs; simp
  | cons a t ih =>
    intro gs
    rw [List.foldl_cons]
    refine (ih (insertGrouped (f a) a gs)).trans ?h
    refine ((flatten_insertGrouped (f a) a gs).append_right t).trans ?h2
    rw [List.append_assoc]
    exact List.Perm.refl _

theorem flatten_groupByKey {α : Type} (f : α → String) (l : List α) :
    List.Perm (((groupByKey f l).map Prod.snd).flatten) l := by
  simpa using flatten_groupByKey_fold f l []

theorem pure_groupByKey_fold {α : Type} (f : α → String) :
    ∀ (l : List α) (gs : List (String × List α)),
      (∀ g ∈ gs, ∀ x ∈ g.2, f x = g.1) →
      ∀ g ∈ l.foldl (fun gs a => insertGrouped (f a) a gs) gs, ∀ x ∈ g.2, f x = g.1 := by
  intro l
  induction l with
  | nil => exact fun gs h => h
  | cons a t ih =>
    intro gs h
    exact ih _ (pure_insertGrouped f a gs h)

theorem pure_groupByKey {α : Type} (f : α → String) (l : List α) :
    ∀ g ∈ groupByKey f l, ∀ x ∈ g.2, f x = g.1 :=
  pure_groupByKey_fold f l [] (by intro g hg; cases hg)

theorem sum_counts_groupByKey {α : Type} (f : α → String) (l : List α) :
    ((groupByKey f l).map (fun g => g.2.length)).sum = l.length := by
  have hperm := flatten_groupByKey f l
  have hlen := hperm.length_eq
  rw [List.length_flatten, List.map_map] at hlen
  exact hlen

theorem partitionFacts_groupByKey {α : Type} (f : α → String) (l : List α) :
    PartitionFacts f l (groupByKey f l) := by
  refine ⟨sum_counts_groupByKey f l, flatten_groupByKey f l, keys_groupByKey f l, ?h1, pure_groupByKey f l⟩
  rw [keys_groupByKey]
  exact nodup_firstOccurrences _

/-! ## Helper lemmas: facet value collection and sorting -/

theorem collectStep_none (acc : List String) : collectStep acc none = acc := rfl

theorem collectStep_some (acc : List String) (v : String) :
    collectStep acc (some v) = if v ≠ "" then setAdd acc v else acc := rfl

theorem mem_collectStep (acc : List String) (v : Option String) (x : String) :
    x ∈ collectStep acc v ↔
      x ∈ acc ∨ (x ≠ "" ∧ v = some x) := by
  rcases v with _ | w
  · rw [collectStep_none]
    simp
  · rw [collectStep_some]
    by_cases hw : w = ""
    · subst hw
      rw [if_neg (by simp)]
      constructor
      · exact fun hx => Or.inl hx
      · rintro (hx | ⟨hne, heq⟩)
        · exact hx
        · cases heq
          exact absurd rfl hne
    · rw [if_pos hw, mem_setAdd]
      constructor
      · rintro (hx | rfl)
        · exact Or.inl hx
        · exact Or.inr ⟨hw, rfl⟩
      · rintro (hx | ⟨hne, heq⟩)
        · exact Or.inl hx
        · cases heq
          exact Or.inr rfl

theorem nodup_collectStep (acc : List String) (v : Option String) (h : acc.Nodup) :
    (collectStep acc v).Nodup := by
  rcases v with _ | w
  · exact h
  · rw [collectStep_some]
    by_cases hw : w = ""
    · simpa [hw] using h
    · simpa [hw] using nodup_setAdd acc w h

theorem mem_collectSet_fold {α : Type} (g : α → Option String) :
    ∀ (l : List α) (acc : List String) (x : String),
      (x ∈ l.foldl (fun acc a => collectStep acc (g a)) acc) ↔
        x ∈ acc ∨ (x ≠ "" ∧ ∃ a ∈ l, g a = some x) := by
  intro l
  induction l with
  | nil => simp
  | cons a t ih =>
    intro acc x
    rw [List.foldl_cons, ih, mem_collectStep]
    constructor
    · rintro ((hx | ⟨hne, hga⟩) | ⟨hne, b, hb, hgb⟩)
      · exact Or.inl hx
      · exact Or.inr ⟨hne, a, List.mem_cons_self _ _, hga⟩
      · exact Or.inr ⟨hne, b, List.mem_cons_of_mem _ hb, hgb⟩
    · rintro (hx | ⟨hne, b, hb, hgb⟩)
      · exact Or.inl (Or.inl hx)
      · rcases List.mem_cons.mp hb with rfl | hb2
        · exact Or.inl (Or.inr ⟨hne, hgb⟩)
        · exact Or.inr ⟨hne, b, hb2, hgb⟩

theorem nodup_collectSet_fold {α : Type} (g : α → Option String) :
    ∀ (l : List α) (acc : List String), acc.Nodup →
      (l.foldl (fun acc a => collectStep acc (g a)) acc).Nodup := by
  intro l
  induction l with
  | nil => exact fun acc h => h
  | cons a t ih =>
    intro acc h
    rw [List.foldl_cons]
    exact ih _ (nodup_collectStep acc (g a) h)

theorem mem_collectSet {α : Type} (g : α → Option String) (l : List α) (x : String) :
    x ∈ collectSet g l ↔ x ≠ "" ∧ ∃ a ∈ l, g a = some x := by
  rw [collectSet, mem_collectSet_fold]
  simp

theorem nodup_collectSet {α : Type} (g : α → Option String) (l : List α) :
    (collectSet g l).Nodup :=
  nodup_collectSet_fold g l [] List.nodup_nil

theorem sorted_jsSortStrings (l : List String) :
    List.Sorted (fun a b => a ≤ b) (jsSortStrings l) := by
  have htrans : ∀ (a b c : String),
      decide (a ≤ b) → decide (b ≤ c) → decide (a ≤ c) := by
    intro a b c hab hbc
    exact decide_eq_true (le_trans (of_decide_eq_true hab) (of_decide_eq_true hbc))
  have htotal : ∀ (a b : String), decide (a ≤ b) || decide (b ≤ a) := by
    intro a b
    rcases le_total a b with h | h
    · simp [h]
    · simp [h]
  have hs := List.sorted_mergeSort htrans htotal l
  exact hs.imp (fun hab => of_decide_eq_true hab)

theorem nodup_jsSortStrings (l : List String) (h : l.Nodup) :
    (jsSortStrings l).Nodup :=
  (List.mergeSort_perm l _).nodup_iff.mpr h

theorem mem_jsSortStrings (l : List String) (x : String) :
    x ∈ jsSortStrings l ↔ x ∈ l := by
  rw [jsSortStrings]
  exact List.mem_mergeSort

theorem mem_labelKeys_fold :
    ∀ (alerts : List UnifiedAlert) (acc : List String) (x : String),
      (x ∈ alerts.foldl (fun ks a => (a.labels.map Prod.fst).foldl setAdd ks) acc) ↔
        x ∈ acc ∨ ∃ a ∈ alerts, x ∈ a.labels.map Prod.fst := by
  intro alerts
  induction alerts with
  | nil => simp
  | cons a t ih =>
    intro acc x
    rw [List.foldl_cons, ih, mem_foldl_setAdd]
    constructor
    · rintro ((hx | hx) | ⟨b, hb, hxb⟩)
      · exact Or.inl hx
      · exact Or.inr ⟨a, List.mem_cons_self _ _, hx⟩
      · exact Or.inr ⟨b, List.mem_cons_of_mem _ hb, hxb⟩
    · rintro (hx | ⟨b, hb, hxb⟩)
      · exact Or.inl (Or.inl hx)
      · rcases List.mem_cons.mp hb with rfl | hb2
        · exact Or.inl (Or.inr hxb)
        · exact Or.inr ⟨b, hb2, hxb⟩

theorem nodup_labelKeys_fold :
    ∀ (alerts : List UnifiedAlert) (acc : List String), acc.Nodup →
      (alerts.foldl (fun ks a => (a.labels.map Prod.fst).foldl setAdd ks) acc).Nodup := by
  intro alerts
  induction alerts with
  | nil => exact fun acc h => h
  | cons a t ih =>
    intro acc h
    rw [List.foldl_cons]
    exact ih _ (nodup_foldl_setAdd _ _ h)

/-! ## Helper lemmas: decimal rendering -/

theorem digitsLoop_val : ∀ (fuel n : Nat), n ≤ fuel →
    valDigits (digitsLoop fuel n) = n := by
  intro fuel
  induction fuel with
  | zero =>
    intro n h
    have hn : n = 0 := Nat.le_zero.mp h
    subst hn
    rfl
  | succ f ih =>
    intro n h
    cases n with
    | zero => rfl
    | succ m =>
      have hdiv : (m + 1) / 10 < m + 1 := Nat.div_lt_self (Nat.succ_pos m) (by omega)
      rw [show digitsLoop (f + 1) (m + 1) =
          ((m + 1) % 10) :: digitsLoop f ((m + 1) / 10) from rfl]
      rw [show valDigits (((m + 1) % 10) :: digitsLoop f ((m + 1) / 10)) =
          (m + 1) % 10 + 10 * valDigits (digitsLoop f ((m + 1) / 10)) from rfl]
      rw [ih ((m + 1) / 10) (by omega)]
      exact Nat.mod_add_div (m + 1) 10

theorem valDigits_natDigitsRev (n : Nat) : valDigits (natDigitsRev n) = n :=
  digitsLoop_val n n (Nat.le_refl n)

theorem digitsLoop_lt : ∀ (fuel n : Nat), ∀ d ∈ digitsLoop fuel n, d < 10 := by
  intro fuel
  induction fuel with
  | zero =>
    intro n d hd
    cases n <;> simp [digitsLoop] at hd
  | succ f ih =>
    intro n d hd
    cases n with
    | zero => simp [digitsLoop] at hd
    | succ m =>
      rw [show digitsLoop (f + 1) (m + 1) =
          ((m + 1) % 10) :: digitsLoop f ((m + 1) / 10) from rfl] at hd
      rcases List.mem_cons.mp hd with rfl | hd2
      · exact Nat.mod_lt _ (by omega)
      · exact ih _ d hd2

theorem mem_natDigitsRev_lt (n d : Nat) (h : d ∈ natDigitsRev n) : d < 10 :=
  digitsLoop_lt n n d h

theorem digitChar_inj_lt : ∀ d1 < 10, ∀ d2 < 10,
    digitChar d1 = digitChar d2 → d1 = d2 := by decide

theorem digitChar_eq_zero : ∀ d < 10, digitChar d = '0' → d = 0 := by decide

theorem map_digitChar_inj :
    ∀ (l1 l2 : List Nat), (∀ d ∈ l1, d < 10) → (∀ d ∈ l2, d < 10) →
      l1.map digitChar = l2.map digitChar → l1 = l2 := by
  intro l1
  induction l1 with
  | nil =>
    intro l2 _ _ h
    cases l2 with
    | nil => rfl
    | cons b bs => simp at h
  | cons a as ih =>
    intro l2 h1 h2 h
    cases l2 with
    | nil => simp at h
    | cons b bs =>
      simp only [List.map_cons, List.cons.injEq] at h
      obtain ⟨hab, hrest⟩ := h
      have ha := h1 a (List.mem_cons_self _ _)
      have hb := h2 b (List.mem_cons_self _ _)
      rw [digitChar_inj_lt a ha b hb hab,
        ih bs (fun d hd => h1 d (List.mem_cons_of_mem _ hd))
          (fun d hd => h2 d (List.mem_cons_of_mem _ hd)) hrest]

theorem decimalRepr_ne_zero_str (b : Nat) (hb : b ≠ 0) : decimalRepr b ≠ "0" := by
  intro h
  rw [decimalRepr, if_neg hb] at h
  have hdata : ((natDigitsRev b).reverse.map digitChar) = ['0'] :=
    congrArg String.data h
  rcases hd : natDigitsRev b with _ | ⟨d, ds⟩
  · rw [hd] at hdata
    simp at hdata
  · rw [hd] at hdata
    rw [List.reverse_cons, List.map_append] at hdata
    have hlen := congrArg List.length hdata
    simp at hlen
    subst hlen
    simp at hdata
    have hdlt : d < 10 := mem_natDigitsRev_lt b d (by rw [hd]; exact List.mem_cons_self _ _)
    have hd0 : d = 0 := digitChar_eq_zero d hdlt hdata
    subst hd0
    have hval := valDigits_natDigitsRev b
    rw [hd] at hval
    rw [show valDigits [0] = 0 from rfl] at hval
    exact hb hval.symm

theorem decimalRepr_inj (a b : Nat) (h : decimalRepr a = decimalRepr b) : a = b := by
  by_cases ha : a = 0 <;> by_cases hb : b = 0
  · rw [ha, hb]
  · subst ha
    exact absurd (h.symm.trans rfl) (decimalRepr_ne_zero_str b hb)
  · subst hb
    exact absurd (h.trans rfl) (decimalRepr_ne_zero_str a ha)
  · rw [decimalRepr, if_neg ha, decimalRepr, if_neg hb] at h
    have hdata := congrArg String.data h
    have hmapeq : (natDigitsRev a).reverse.map digitChar =
        (natDigitsRev b).reverse.map digitChar := hdata
    have hrev : (natDigitsRev a).reverse = (natDigitsRev b).reverse :=
      map_digitChar_inj _ _
        (fun d hd => mem_natDigitsRev_lt a d (List.mem_reverse.mp hd))
        (fun d hd => mem_natDigitsRev_lt b d (List.mem_reverse.mp hd)) hmapeq
    have hdig : natDigitsRev a = natDigitsRev b := List.reverse_inj.mp hrev
    have hval := congrArg valDigits hdig
    rw [valDigits_natDigitsRev, valDigits_natDigitsRev] at hval
    exact hval

theorem ssId_inj (t1 t2 : Nat)
    (h : "ss-" ++ decimalRepr t1 = "ss-" ++ decimalRepr t2) : t1 = t2 := by
  have hdata := congrArg String.data h
  rw [String.data_append, String.data_append] at hdata
  have hsub := List.append_cancel_left hdata
  exact decimalRepr_inj t1 t2 (String.ext hsub)

/-! ## Helper lemmas: tombstone set -/

theorem foldl_setAdd_subset : ∀ (l : List String) (s : List String),
    (∀ x ∈ l, x ∈ s) → l.foldl setAdd s = s := by
  intro l
  induction l with
  | nil => intro s _; rfl
  | cons a t ih =>
    intro s h
    rw [List.foldl_cons, setAdd, if_pos (h a (List.mem_cons_self _ _))]
    exact ih s (fun x hx => h x (List.mem_cons_of_mem _ hx))

/-! ## Claim theorems -/

/-- C1 (amended): the alert filter evaluator returns exactly the records of
the input collection, in input order, that satisfy all active constraints:
free text over name, message, state, severity (empty query passes), every
standard facet with a non-empty selected set, and every label facet with a
non-empty selected set — where the record must carry the label key with a
non-empty value contained in the selected set. -/
theorem claim_C1 (alerts : List UnifiedAlert) (q : String) (fs : AlertFilterState) :
    filteredAlerts alerts q fs = alerts.filter (matchesFilters q fs) :=
  filteredAlerts_eq_filter alerts q fs

/-- C1 counterexample: for a record whose `service` label value is the
empty string and a filter selecting exactly that empty value, the claim as
stated (label clause: key present and value in the selected set) admits
the record, but the evaluator rejects it because of the JS truthiness
check on the label value. -/
theorem claim_C1_counterexample :
    filteredAlerts [cexAlert] "" cexFilters ≠
      List.filter (specMatches "" cexFilters) [cexAlert] := by decide

/-- C2: for every filtered collection and every group key, grouping yields
a partition: bucket member counts sum to the collection size, the buckets
jointly hold exactly the records (no duplicates, no omissions), buckets
appear in first-appearance order of their keys, and the rule grouping
additionally reports each bucket size as its `ruleCount`. -/
theorem claim_C2 (gb : AlertGroupBy) (hgb : gb ≠ AlertGroupBy.none)
    (filtered : List UnifiedAlert) (filteredRules : List UnifiedRule) :
    (∃ gs, groupedAlerts gb filtered = some gs ∧
      PartitionFacts (alertGroupKey gb) filtered gs) ∧
    PartitionFacts ruleGroupKey filteredRules
      ((groupedRules filteredRules).map (fun g => (g.groupName, g.rules))) ∧
    ((groupedRules filteredRules).map (fun g => g.ruleCount)).sum =
      filteredRules.length := by
  refine ⟨⟨groupByKey (alertGroupKey gb) filtered, ?h1, partitionFacts_groupByKey _ _⟩,
    ?h2, ?h3⟩
  · rw [groupedAlerts, if_neg hgb]
  · have hmap : (groupedRules filteredRules).map (fun g => (g.groupName, g.rules)) =
        groupByKey ruleGroupKey filteredRules := by
      rw [groupedRules, List.map_map]
      exact List.map_id _
    rw [hmap]
    exact partitionFacts_groupByKey _ _
  · rw [groupedRules, List.map_map]
    exact sum_counts_groupByKey ruleGroupKey filteredRules

/-- C2 witness: instantiation at a concrete grouping mode, alert list and
rule list. -/
theorem claim_C2_witness :
    (AlertGroupBy.datasource ≠ AlertGroupBy.none) ∧
    ((groupedRules [sampleRule, sampleRule2]).map (fun g => g.ruleCount)).sum =
      [sampleRule, sampleRule2].length :=
  ⟨by decide,
    (claim_C2 AlertGroupBy.datasource (by decide) [sampleAlert]
      [sampleRule, sampleRule2]).2.2⟩

/-- C3: every facet distinct-value list (standard fields and label values)
is ascending, duplicate-free and free of empty values, holding exactly the
non-empty observed values; the label-key list is the sorted duplicate-free
union of the label-key sets of all records. -/
theorem claim_C3 (alerts : List UnifiedAlert) (field : UnifiedAlert → String)
    (key : String) :
    (List.Sorted (fun a b => a ≤ b) (collectUniqueValues alerts field) ∧
     (collectUniqueValues alerts field).Nodup ∧
     (∀ v, v ∈ collectUniqueValues alerts field ↔
        v ≠ "" ∧ ∃ a ∈ alerts, field a = v)) ∧
    (List.Sorted (fun a b => a ≤ b) (collectLabelValues alerts key) ∧
     (collectLabelValues alerts key).Nodup ∧
     (∀ v, v ∈ collectLabelValues alerts key ↔
        v ≠ "" ∧ ∃ a ∈ alerts, List.lookup key a.labels = some v)) ∧
    (List.Sorted (fun a b => a ≤ b) (collectLabelKeys alerts) ∧
     (collectLabelKeys alerts).Nodup ∧
     (∀ k, k ∈ collectLabelKeys alerts ↔ ∃ a ∈ alerts, k ∈ a.labels.map Prod.fst)) := by
  refine ⟨⟨sorted_jsSortStrings _, nodup_jsSortStrings _ (nodup_collectSet _ _), ?h1⟩,
    ⟨sorted_jsSortStrings _, nodup_jsSortStrings _ (nodup_collectSet _ _), ?h2⟩,
    ⟨sorted_jsSortStrings _, nodup_jsSortStrings _ (nodup_labelKeys_fold _ _ List.nodup_nil), ?h3⟩⟩
  · intro v
    rw [collectUniqueValues, mem_jsSortStrings, mem_collectSet]
    simp
  · intro v
    rw [collectLabelValues, mem_jsSortStrings, mem_collectSet]
  · intro k
    rw [collectLabelKeys, mem_jsSortStrings, mem_labelKeys_fold]
    simp

/-- C4: saving a search snapshots the active query and filter state under
the given name, and loading that entry restores exactly this query and
filter state into any later page state, replacing whatever was active. -/
theorem claim_C4 (now : Nat) (name : String) (st st2 : PageState)
    (hname : name ≠ "") :
    ∃ e : SavedSearch,
      (saveCurrentSearch now name st).savedSearches = st.savedSearches ++ [e] ∧
      e.name = name ∧ e.query = st.searchQuery ∧ e.filters = st.filters ∧
      loadSavedSearch e st2 =
        { st2 with searchQuery := st.searchQuery, filters := st.filters } := by
  refine ⟨{ id := "ss-" ++ decimalRepr now, name := name
            query := st.searchQuery, filters := st.filters }, ?h, rfl, rfl, rfl, rfl⟩
  rw [saveCurrentSearch, if_neg hname]

/-- C4 witness: instantiation at a concrete name, timestamp and pair of
page states. -/
theorem claim_C4_witness :
    ("mine" ≠ "") ∧
    ∃ e : SavedSearch,
      (saveCurrentSearch 7 "mine" saveStateA).savedSearches =
        saveStateA.savedSearches ++ [e] ∧
      e.name = "mine" ∧ e.query = saveStateA.searchQuery ∧
      e.filters = saveStateA.filters ∧
      loadSavedSearch e saveStateB =
        { saveStateB with
          searchQuery := saveStateA.searchQuery, filters := saveStateA.filters } :=
  ⟨by decide, claim_C4 7 "mine" saveStateA saveStateB (by decide)⟩

/-- C5: deleting rule ids removes them from the visible rule list while
leaving the fetched rule collection untouched; the operation is idempotent
and deleting an already-deleted id leaves the whole state as it was. -/
theorem claim_C5 (st : PageState) (ids : List String) :
    (handleDeleteRules ids st).rules = st.rules ∧
    (∀ id ∈ ids, ∀ r ∈ visibleRules (handleDeleteRules ids st), r.id ≠ id) ∧
    handleDeleteRules ids (handleDeleteRules ids st) = handleDeleteRules ids st ∧
    (∀ id ∈ st.deletedRuleIds, handleDeleteRules [id] st = st) := by
  refine ⟨rfl, ?h1, ?h2, ?h3⟩
  · intro id hid r hr
    have hmem := List.of_mem_filter hr
    have hnot := of_decide_eq_true hmem
    intro heq
    apply hnot
    rw [heq]
    exact (mem_foldl_setAdd ids st.deletedRuleIds id).mpr (Or.inr hid)
  · have hsub : ids.foldl setAdd (ids.foldl setAdd st.deletedRuleIds) =
        ids.foldl setAdd st.deletedRuleIds :=
      foldl_setAdd_subset ids _
        (fun x hx => (mem_foldl_setAdd _ _ x).mpr (Or.inr hx))
    simp only [handleDeleteRules]
    rw [hsub]
  · intro id hid
    simp only [handleDeleteRules]
    simp only [List.foldl_cons, List.foldl_nil]
    rw [setAdd, if_pos hid]

/-- C5 witness: instantiation at a concrete state and id list. -/
theorem claim_C5_witness :
    (handleDeleteRules ["r1"] rulesStateA).rules = rulesStateA.rules ∧
    handleDeleteRules ["r1"] (handleDeleteRules ["r1"] rulesStateA) =
      handleDeleteRules ["r1"] rulesStateA :=
  ⟨(claim_C5 rulesStateA ["r1"]).1, (claim_C5 rulesStateA ["r1"]).2.2.1⟩

/-- C6 (amended): cloning prepends a new rule whose id is the clone tag of
the current timestamp, whose name gains the Copy suffix, whose creator is
the fixed actor tag and whose timestamps are the current time, all other
fields equal to the original; the id differs from the original id whenever
the original id is not itself that clone tag, and the creator differs from
the original creator whenever the original creator was not already the
fixed tag. -/
theorem claim_C6 (now : Nat) (monitor : UnifiedRule) (st : PageState) :
    (handleCloneRule now monitor st).rules = cloneOf now monitor :: st.rules ∧
    (cloneOf now monitor).id = "clone-" ++ decimalRepr now ∧
    (cloneOf now monitor).name = monitor.name ++ " (Copy)" ∧
    (cloneOf now monitor).createdBy = "current-user" ∧
    (cloneOf now monitor).createdAt = now ∧
    (cloneOf now monitor).lastModified = now ∧
    (cloneOf now monitor).datasourceId = monitor.datasourceId ∧
    (cloneOf now monitor).datasourceType = monitor.datasourceType ∧
    (cloneOf now monitor).enabled = monitor.enabled ∧
    (cloneOf now monitor).severity = monitor.severity ∧
    (cloneOf now monitor).query = monitor.query ∧
    (cloneOf now monitor).condition = monitor.condition ∧
    (cloneOf now monitor).labels = monitor.labels ∧
    (cloneOf now monitor).annotations = monitor.annotations ∧
    (cloneOf now monitor).monitorType = monitor.monitorType ∧
    (cloneOf now monitor).status = monitor.status ∧
    (cloneOf now monitor).healthStatus = monitor.healthStatus ∧
    (cloneOf now monitor).group = monitor.group ∧
    (cloneOf now monitor).description = monitor.description ∧
    (cloneOf now monitor).aiSummary = monitor.aiSummary ∧
    (monitor.id ≠ "clone-" ++ decimalRepr now →
      (cloneOf now monitor).id ≠ monitor.id) ∧
    (monitor.createdBy ≠ "current-user" →
      (cloneOf now monitor).createdBy ≠ monitor.createdBy) := by
  refine ⟨rfl, rfl, rfl, rfl, rfl, rfl, rfl, rfl, rfl, rfl, rfl, rfl, rfl, rfl,
    rfl, rfl, rfl, rfl, rfl, rfl, ?h1, ?h2⟩
  · exact fun hne heq => hne heq.symm
  · exact fun hne heq => hne heq.symm

/-- C6 counterexample: cloning, at timestamp 42, a rule whose id is
already the clone tag for 42 and whose creator is already the fixed actor
tag yields a clone with the same id and the same creator as the original,
contradicting the claim that both always differ. -/
theorem claim_C6_counterexample :
    (cloneOf 42 cloneCexRule).id = cloneCexRule.id ∧
    (cloneOf 42 cloneCexRule).createdBy = cloneCexRule.createdBy ∧
    (handleCloneRule 42 cloneCexRule initialPageState).rules.head? =
      some (cloneOf 42 cloneCexRule) := by decide

/-- C6 witness: for an ordinary rule the clone id and creator do differ. -/
theorem claim_C6_witness :
    (cloneOf 3 sampleRule).id ≠ sampleRule.id ∧
    (cloneOf 3 sampleRule).createdBy ≠ sampleRule.createdBy := by
  obtain ⟨-, -, -, -, -, -, -, -, -, -, -, -, -, -, -, -, -, -, -, -, h1, h2⟩ :=
    claim_C6 3 sampleRule initialPageState
  exact ⟨h1 (by decide), h2 (by decide)⟩

/-- C7: silencing toggles the status of the rule carrying the given id —
muted becomes active, anything else becomes muted — and is a no-op
(returning the state unchanged, and in particular never throwing) when
no rule has the id. -/
theorem claim_C7 (rid : String) (st : PageState) :
    ((∀ r ∈ st.rules, r.id ≠ rid) → handleSilenceRule rid st = st) ∧
    (handleSilenceRule rid st).rules.length = st.rules.length ∧
    (∀ (i : Nat) (r : UnifiedRule), st.rules[i]? = some r →
      (handleSilenceRule rid st).rules[i]? =
        some (if r.id = rid then { r with status := toggledStatus r.status } else r)) ∧
    (∀ (i : Nat) (r : UnifiedRule), st.rules[i]? = some r → r.id = rid →
      r.status = "muted" →
      ((handleSilenceRule rid st).rules[i]?.map (fun r2 => r2.status)) =
        some "active") ∧
    (∀ (i : Nat) (r : UnifiedRule), st.rules[i]? = some r → r.id = rid →
      r.status ≠ "muted" →
      ((handleSilenceRule rid st).rules[i]?.map (fun r2 => r2.status)) =
        some "muted") := by
  have hidx : ∀ (i : Nat), (handleSilenceRule rid st).rules[i]? =
      (st.rules[i]?).map (fun r =>
        if r.id = rid then { r with status := toggledStatus r.status } else r) := by
    intro i
    show (st.rules.map _)[i]? = _
    rw [List.getElem?_map]
  refine ⟨?h0, ?h1, ?h2, ?h3, ?h4⟩
  · intro h
    show ({ st with rules := st.rules.map _ } : PageState) = st
    have hrw : st.rules.map (fun r =>
        if r.id = rid then { r with status := toggledStatus r.status } else r) =
        st.rules := by
      have hcong : ∀ r ∈ st.rules,
          (if r.id = rid then { r with status := toggledStatus r.status } else r) =
            id r := by
        intro r hr
        rw [if_neg (h r hr)]
        rfl
      rw [List.map_congr_left hcong, List.map_id]
    rw [hrw]
  · show (st.rules.map _).length = _
    exact List.length_map _ _
  · intro i r hr
    rw [hidx i, hr]
    rfl
  · intro i r hr hrid hrst
    rw [hidx i, hr]
    simp [hrid, toggledStatus, hrst]
  · intro i r hr hrid hrst
    rw [hidx i, hr]
    simp [hrid, toggledStatus, hrst]

/-- C7 witness: silencing an id that no rule carries leaves the state
unchanged. -/
theorem claim_C7_witness :
    handleSilenceRule "absent" rulesStateA = rulesStateA :=
  (claim_C7 "absent" rulesStateA).1 (by decide)

/-- C1 witness: instantiation at a concrete alert list, query and filter
state. -/
theorem claim_C1_witness :
    filteredAlerts [sampleAlert] "" emptyAlertFilters =
      List.filter (matchesFilters "" emptyAlertFilters) [sampleAlert] :=
  claim_C1 [sampleAlert] "" emptyAlertFilters

/-- C3 witness: instantiation at a concrete collection and facet field. -/
theorem claim_C3_witness :
    List.Sorted (fun a b => a ≤ b)
      (collectUniqueValues [sampleAlert, cexAlert] (fun a => a.state)) :=
  (claim_C3 [sampleAlert, cexAlert] (fun a => a.state) "team").1.1

/-- C10: silencing a present id rewrites only the status field of the
matching rule: the list length is kept, every rule with another id is
returned unchanged at its position, the matching rule keeps every field
except status, and positions are preserved throughout. -/
theorem claim_C10 (rid : String) (st : PageState) :
    (handleSilenceRule rid st).rules.length = st.rules.length ∧
    (∀ (i : Nat) (r : UnifiedRule), st.rules[i]? = some r → r.id ≠ rid →
      (handleSilenceRule rid st).rules[i]? = some r) ∧
    (∀ (i : Nat) (r : UnifiedRule), st.rules[i]? = some r → r.id = rid →
      (handleSilenceRule rid st).rules[i]? =
        some { r with status := toggledStatus r.status }) ∧
    (∀ (i : Nat) (r : UnifiedRule), st.rules[i]? = some r →
      ∃ r2 : UnifiedRule, (handleSilenceRule rid st).rules[i]? = some r2 ∧
        r2.id = r.id ∧ r2.name = r.name ∧ r2.datasourceId = r.datasourceId ∧
        r2.datasourceType = r.datasourceType ∧ r2.enabled = r.enabled ∧
        r2.severity = r.severity ∧ r2.query = r.query ∧
        r2.condition = r.condition ∧ r2.labels = r.labels ∧
        r2.annotations = r.annotations ∧ r2.monitorType = r.monitorType ∧
        r2.healthStatus = r.healthStatus ∧ r2.group = r.group ∧
        r2.createdBy = r.createdBy ∧ r2.createdAt = r.createdAt ∧
        r2.lastModified = r.lastModified ∧ r2.description = r.description ∧
        r2.aiSummary = r.aiSummary) := by
  have hidx : ∀ (i : Nat), (handleSilenceRule rid st).rules[i]? =
      (st.rules[i]?).map (fun r =>
        if r.id = rid then { r with status := toggledStatus r.status } else r) := by
    intro i
    show (st.rules.map _)[i]? = _
    rw [List.getElem?_map]
  refine ⟨?h1, ?h2, ?h3, ?h4⟩
  · show (st.rules.map _).length = _
    exact List.length_map _ _
  · intro i r hr hne
    rw [hidx i, hr]
    simp [hne]
  · intro i r hr heq
    rw [hidx i, hr]
    simp [heq]
  · intro i r hr
    by_cases heq : r.id = rid
    · exact ⟨{ r with status := toggledStatus r.status },
        by rw [hidx i, hr]; simp [heq],
        rfl, rfl, rfl, rfl, rfl, rfl, rfl, rfl, rfl, rfl, rfl, rfl, rfl, rfl,
        rfl, rfl, rfl, rfl⟩
    · exact ⟨r, by rw [hidx i, hr]; simp [heq],
        rfl, rfl, rfl, rfl, rfl, rfl, rfl, rfl, rfl, rfl, rfl, rfl, rfl, rfl,
        rfl, rfl, rfl, rfl⟩

/-- C10 witness: instantiation at a concrete id and state. -/
theorem claim_C10_witness :
    (handleSilenceRule "r1" rulesStateA).rules.length =
      rulesStateA.rules.length :=
  (claim_C10 "r1" rulesStateA).1

/-- The induction core for C8: a run of saves at strictly increasing
timestamps, starting from a store whose ids are duplicate-free and still
fresh for every upcoming timestamp, keeps the stored ids duplicate-free. -/
theorem runSaves_nodup_aux :
    ∀ (ops : List (Nat × String)) (st : PageState),
      List.Pairwise (fun p q2 => p.1 < q2.1) ops →
      ((st.savedSearches.map (fun s => s.id)).Nodup) →
      (∀ e ∈ st.savedSearches, ∀ op ∈ ops, e.id ≠ "ss-" ++ decimalRepr op.1) →
      (((runSaves st ops).savedSearches.map (fun s => s.id)).Nodup) := by
  intro ops
  induction ops with
  | nil => exact fun st _ hnd _ => hnd
  | cons op rest ih =>
    obtain ⟨t, name⟩ := op
    intro st hpw hnd hfresh
    rw [List.pairwise_cons] at hpw
    obtain ⟨hhead, htail⟩ := hpw
    rw [runSaves, List.foldl_cons]
    by_cases hname : name = ""
    · have hns : saveCurrentSearch t name st = st := by
        rw [saveCurrentSearch, if_pos hname]
      show ((runSaves (saveCurrentSearch t name st) rest).savedSearches.map
        (fun s => s.id)).Nodup
      rw [hns]
      exact ih st htail hnd
        (fun e he op2 hop => hfresh e he op2 (List.mem_cons_of_mem _ hop))
    · have hns : (saveCurrentSearch t name st).savedSearches =
          st.savedSearches ++
            [{ id := "ss-" ++ decimalRepr t, name := name
               query := st.searchQuery, filters := st.filters }] := by
        rw [saveCurrentSearch, if_neg hname]
      show ((runSaves (saveCurrentSearch t name st) rest).savedSearches.map
        (fun s => s.id)).Nodup
      refine ih (saveCurrentSearch t name st) htail ?hnd2 ?hfresh2
      · rw [hns, List.map_append]
        rw [List.nodup_append]
        refine ⟨hnd, List.nodup_singleton _, ?hdisj⟩
        intro x hx hx2
        simp only [List.map_cons, List.map_nil, List.mem_singleton] at hx2
        subst hx2
        obtain ⟨e, he, heid⟩ := List.mem_map.mp hx
        exact hfresh e he (t, name) (List.mem_cons_self _ _) heid
      · intro e he op2 hop
        rw [hns] at he
        rcases List.mem_append.mp he with hold | hnew
        · exact hfresh e hold op2 (List.mem_cons_of_mem _ hop)
        · simp only [List.mem_singleton] at hnew
          subst hnew
          intro heq
          have ht := ssId_inj t op2.1 heq
          have hlt := hhead op2 hop
          omega

/-- C8 (amended): starting from the empty store, any sequence of saves
whose observed timestamps are strictly increasing leaves no two stored
entries with the same id; ids are generated by the store from the
timestamp, never supplied by the caller. -/
theorem claim_C8 (ops : List (Nat × String))
    (hmono : List.Pairwise (fun p q2 => p.1 < q2.1) ops) :
    (((runSaves initialPageState ops).savedSearches.map (fun s => s.id)).Nodup) := by
  refine runSaves_nodup_aux ops initialPageState hmono ?h1 ?h2
  · simp [initialPageState]
  · intro e he
    simp [initialPageState] at he

/-- C8 counterexample: two saves observing the same `Date.now()` value
produce two entries with the identical id `ss-5`, so the second save does
not assign an id distinct from those already stored. -/
theorem claim_C8_counterexample :
    ((runSaves initialPageState [(5, "a"), (5, "b")]).savedSearches.map
        (fun s => s.id)) = ["ss-5", "ss-5"] ∧
    ¬ (((runSaves initialPageState [(5, "a"), (5, "b")]).savedSearches.map
        (fun s => s.id)).Nodup) := by decide

/-- C8 witness: a run of two saves at increasing timestamps. -/
theorem claim_C8_witness :
    List.Pairwise (fun (p : Nat × String) q2 => p.1 < q2.1) [(1, "a"), (2, "b")] ∧
    (((runSaves initialPageState [(1, "a"), (2, "b")]).savedSearches.map
        (fun s => s.id)).Nodup) :=
  ⟨by decide, claim_C8 [(1, "a"), (2, "b")] (by decide)⟩

/-- C9: when any of the three fetches fails, the joined fetch fails, the
failure is absorbed into a state transition (no exception escapes: the
embedded `fetchData` is total), the loading flag is cleared, and all three
collections of the freshly mounted page remain empty. -/
theorem claim_C9 {ε : Type} (ra : Except ε (List UnifiedAlert))
    (rr : Except ε (List UnifiedRule)) (rd : Except ε (List Datasource))
    (h : (∃ e, ra = Except.error e) ∨ (∃ e, rr = Except.error e) ∨
      (∃ e, rd = Except.error e)) :
    (∃ e, joinFetch ra rr rd = Except.error e) ∧
    (fetchData initialPageState (joinFetch ra rr rd)).loading = false ∧
    (fetchData initialPageState (joinFetch ra rr rd)).alerts = [] ∧
    (fetchData initialPageState (joinFetch ra rr rd)).rules = [] ∧
    (fetchData initialPageState (joinFetch ra rr rd)).datasources = [] := by
  rcases ra with e | a <;> rcases rr with e2 | r <;> rcases rd with e3 | d
  all_goals first
    | exact ⟨⟨_, rfl⟩, rfl, rfl, rfl, rfl⟩
    | (rcases h with ⟨e4, he⟩ | ⟨e4, he⟩ | ⟨e4, he⟩ <;> cases he)

/-- C9 witness: a failing alerts fetch with the other two succeeding. -/
theorem claim_C9_witness :
    (∃ e, joinFetch (Except.error () : Except Unit (List UnifiedAlert))
      (Except.ok []) (Except.ok []) = Except.error e) ∧
    (fetchData initialPageState (joinFetch
      (Except.error () : Except Unit (List UnifiedAlert))
      (Except.ok []) (Except.ok []))).loading = false ∧
    (fetchData initialPageState (joinFetch
      (Except.error () : Except Unit (List UnifiedAlert))
      (Except.ok []) (Except.ok []))).alerts = [] ∧
    (fetchData initialPageState (joinFetch
      (Except.error () : Except Unit (List UnifiedAlert))
      (Except.ok []) (Except.ok []))).rules = [] ∧
    (fetchData initialPageState (joinFetch
      (Except.error () : Except Unit (List UnifiedAlert))
      (Except.ok []) (Except.ok []))).datasources = [] :=
  claim_C9 (Except.error ()) (Except.ok []) (Except.ok []) (Or.inl ⟨(), rfl⟩)
